import Mathlib

set_option maxRecDepth 8000

/-!
Shallow embedding of the check-orchestration core of
`src/index.js` (german-embassy-appointment-watcher), together with
theorems settling the frozen behavioural claims about it.

All definitions are translated from the first (current) revision of
`src/index.js`; line numbers in the comments refer to that file.
-/

namespace Watcher

/-! ## Constants (src/index.js lines 11-16 and line 745) -/

/-- `NOTIFICATION_INTERVAL_MS` (line 13). -/
def NOTIFICATION_INTERVAL_MS : Nat := 5 * 1000

/-- `MAX_NOTIFICATIONS` (line 14): cap on repeated notification ticks. -/
def MAX_NOTIFICATIONS : Nat := 50

/-- `EMAIL_NOTIFICATION_FREQUENCY` (line 15): send email every X ticks. -/
def EMAIL_NOTIFICATION_FREQUENCY : Nat := 10

/-- `MAX_EMAIL_NOTIFICATIONS` (line 16): cap on emails per campaign. -/
def MAX_EMAIL_NOTIFICATIONS : Nat := 10

/-- `MAX_CAPTCHA_ATTEMPTS` (line 745): bound on the captcha retry loop. -/
def MAX_CAPTCHA_ATTEMPTS : Nat := 5

/-! ## WorkingHoursGate — `isWithinWorkingHours` (lines 181-209)

The source builds three moments on the current calendar day: `now`,
`startMoment` (today at `workingStartHour:workingStartMinute`) and
`endMoment` (today at `workingEndHour:workingEndMinute`), then compares
their timestamps.  We embed instants of that day as milliseconds since
local midnight: the window boundaries are whole minutes, `now` is an
arbitrary millisecond of the day.  `startMoment.isAfter(endMoment)`
is `endMs < startMs`; `isSameOrAfter` is `≤`; `isBefore` is `<`. -/

/-- Milliseconds since midnight of the moment `{hour, minute}`. -/
def momentMs (hour minute : Nat) : Nat := (hour * 60 + minute) * 60000

/-- `isWithinWorkingHours` (lines 181-209): the wrap-around branch
(line 202, `startMoment.isAfter(endMoment)`) allows
`now ≥ start || now < end`; the same-day branch allows
`now ≥ start && now < end`. -/
def isWithinWorkingHours (startHour startMinute endHour endMinute nowMs : Nat) : Bool :=
  if momentMs endHour endMinute < momentMs startHour startMinute then
    decide (momentMs startHour startMinute ≤ nowMs) ||
      decide (nowMs < momentMs endHour endMinute)
  else
    decide (momentMs startHour startMinute ≤ nowMs) &&
      decide (nowMs < momentMs endHour endMinute)

/-! ## Captcha retry loop — `runCheck` step 3 (lines 744-855)

One iteration of the `while (captchaAttempts < MAX_CAPTCHA_ATTEMPTS)`
loop ends in one of three ways relevant to the attempt counter:
the resolver (anti-captcha service or human relay) fails and the loop
`continue`s with `captchaAttempts++` (lines 774-784 and 789-808); the
submitted text is rejected as wrong and the loop `continue`s with
`captchaAttempts++` (lines 834-844); or the captcha is accepted and the
loop `break`s (lines 846-847).  Abort paths throw out of the loop and
are not part of the retry-bound claim. -/

/-- Outcome of one captcha attempt, as distinguished by the loop body. -/
inductive AttemptOutcome where
  | accepted
  | wrongCaptcha
  | resolverFailed
deriving DecidableEq

/-- Result of the retry loop: either the captcha was accepted after
`attemptsUsed` failed attempts, or the loop exited with the counter at
`attemptsUsed`. -/
inductive CaptchaLoopResult where
  | solved (attemptsUsed : Nat)
  | exhausted (attemptsUsed : Nat)
deriving DecidableEq

/-- The `while (captchaAttempts < maxAttempts)` loop of `runCheck`
(lines 747-848), parameterised by the outcome of each attempt
(`outcome n` is what the n-th attempt, 0-based, does). -/
def captchaLoop (outcome : Nat → AttemptOutcome) (maxAttempts attempts : Nat) :
    CaptchaLoopResult :=
  if _h : attempts < maxAttempts then
    match outcome attempts with
    | .accepted => .solved attempts
    | .wrongCaptcha => captchaLoop outcome maxAttempts (attempts + 1)
    | .resolverFailed => captchaLoop outcome maxAttempts (attempts + 1)
  else
    .exhausted attempts
termination_by maxAttempts - attempts

/-- Errors surfaced by the check orchestrator. -/
inductive CheckError where
  | attemptsExhausted
deriving DecidableEq

/-- The captcha phase of `runCheck`: run the loop from
`captchaAttempts = 0`; afterwards (lines 851-855), if
`captchaAttempts >= MAX_CAPTCHA_ATTEMPTS` the orchestrator throws the
attempts-exhausted error, otherwise it proceeds with the accepted
attempt. -/
def runCheckCaptchaPhase (outcome : Nat → AttemptOutcome) : Except CheckError Nat :=
  match captchaLoop outcome MAX_CAPTCHA_ATTEMPTS 0 with
  | .solved a => .ok a
  | .exhausted _ => .error .attemptsExhausted

/-! ## Notification escalation — `notifyAvailable` (lines 584-666)

The mutable pieces of a campaign are the closure counters
`notificationCount` / `emailCount`, the interval handle
`state.spamInterval`, the registered `stopHandler` message listener and
the pending `state.notifyAvailableResolver`.  `sendAllNotifications`
(lines 597-630) is the body executed immediately on start and then on
every interval tick; `stopNotifications` (lines 633-644) clears the
interval, removes the listener and resolves the awaited promise. -/

/-- In-memory state of one notification campaign. -/
structure NotificationCampaign where
  notificationCount : Nat
  emailCount : Nat
  spamIntervalActive : Bool
  stopHandlerRegistered : Bool
  resolverPending : Bool
deriving DecidableEq

/-- `stopNotifications` (lines 633-644): clear the interval, remove the
`stopHandler` listener, resolve the campaign promise.  Counters are
left untouched. -/
def stopNotifications (c : NotificationCampaign) : NotificationCampaign :=
  { c with spamIntervalActive := false, stopHandlerRegistered := false,
           resolverPending := false }

/-- `sendAllNotifications` (lines 597-630), the body of one tick.
Returns the updated campaign state together with whether an email was
sent on this tick (a chat message and a push are sent on every tick).
An email is sent iff `(notificationCount + 1) % EMAIL_NOTIFICATION_FREQUENCY === 0`
and `emailCount < MAX_EMAIL_NOTIFICATIONS` (lines 610-613); the tick
then increments `notificationCount` and, if it reached
`MAX_NOTIFICATIONS`, calls `stopNotifications` (lines 624-629). -/
def sendAllNotifications (c : NotificationCampaign) : NotificationCampaign × Bool :=
  let emailNow := decide ((c.notificationCount + 1) % EMAIL_NOTIFICATION_FREQUENCY = 0) &&
    decide (c.emailCount < MAX_EMAIL_NOTIFICATIONS)
  let c1 := if emailNow then { c with emailCount := c.emailCount + 1 } else c
  let c2 := { c1 with notificationCount := c1.notificationCount + 1 }
  if MAX_NOTIFICATIONS ≤ c2.notificationCount then (stopNotifications c2, emailNow)
  else (c2, emailNow)

/-- One interval tick: `sendAllNotifications` runs only while the
interval is installed (once `stopNotifications` has cleared
`state.spamInterval`, no further tick fires). -/
def campaignTick (c : NotificationCampaign) : NotificationCampaign × Bool :=
  if c.spamIntervalActive then sendAllNotifications c else (c, false)

/-- Campaign state as created by `notifyAvailable` (lines 590-664):
counters at zero, interval installed, `stopHandler` registered,
promise pending. -/
def campaignStart : NotificationCampaign :=
  { notificationCount := 0, emailCount := 0, spamIntervalActive := true,
    stopHandlerRegistered := true, resolverPending := true }

/-- Campaign state after `n` interval ticks of a campaign that receives
no operator message. -/
def campaignRun : Nat → NotificationCampaign
  | 0 => campaignStart
  | n + 1 => (campaignTick (campaignRun n)).1

/-- Whether the tick with 0-based index `n` of an unacknowledged
campaign sends an email. -/
def emailOnTick (n : Nat) : Bool := (campaignTick (campaignRun n)).2

/-- Whether the tick with 0-based index `n` of an unacknowledged
campaign sends a chat message and a push (it does iff the interval is
still installed when the tick fires). -/
def chatOnTick (n : Nat) : Bool := (campaignRun n).spamIntervalActive

/-- The case-insensitive acknowledgment test of `stopHandler`
(line 657, `msg.text?.toUpperCase() === "OK"`), on the character list
of the message text. -/
def textIsOk (text : String) : Bool :=
  text.data.map Char.toUpper == "OK".data

/-- `stopHandler` (lines 656-662) as fired by an inbound message: if the
listener is still registered and the message is from `CHAT_ID` with
text upper-casing to `"OK"`, it sends one "stopping alerts"
confirmation and calls `stopNotifications`.  Returns the new state and
the number of confirmations sent by this dispatch. -/
def handleInboundOk (c : NotificationCampaign) (chatMatches : Bool) (text : String) :
    NotificationCampaign × Nat :=
  if c.stopHandlerRegistered && chatMatches && textIsOk text then
    (stopNotifications c, 1)
  else
    (c, 0)

/-- An event a running campaign can process: an interval tick, or an
inbound operator message. -/
inductive CampaignAction where
  | intervalTick
  | inbound (chatMatches : Bool) (text : String)

/-- Apply one campaign action to the campaign state. -/
def campaignStep (c : NotificationCampaign) (a : CampaignAction) : NotificationCampaign :=
  match a with
  | .intervalTick => (campaignTick c).1
  | .inbound chatMatches text => (handleInboundOk c chatMatches text).1

/-- Campaign state after an arbitrary sequence of ticks and inbound
messages, starting from a freshly started campaign. -/
def campaignExec (acts : List CampaignAction) : NotificationCampaign :=
  acts.foldl campaignStep campaignStart

/-! ## Idempotent-start behaviour of `notifyAvailable` (lines 584-588)

`notifyAvailable` begins with
`if (state.spamInterval) { console.log(...); return Promise.resolve(); }`:
when a campaign is already active it creates no new interval and
returns a *fresh, already-resolved* promise.  Otherwise it creates the
campaign and returns a promise resolved by `stopNotifications`. -/

/-- The kind of awaitable `notifyAvailable` returns. -/
inductive NotifyHandle where
  | alreadyResolved
  | resolvesOnStop
deriving DecidableEq

/-- The start of `notifyAvailable`: given whether `state.spamInterval`
is currently set, returns whether a new campaign (interval timer) was
created, and which kind of handle the caller receives. -/
def notifyAvailableCall (spamIntervalActive : Bool) : Bool × NotifyHandle :=
  if spamIntervalActive then (false, .alreadyResolved)
  else (true, .resolvesOnStop)

/-- When a handle resolves, in campaign-tick time: an already-resolved
promise (`Promise.resolve()`) is resolved at the tick of the call; the
campaign promise resolves at the tick `stopNotifications` runs. -/
def handleResolveTick (h : NotifyHandle) (callTick stopTick : Nat) : Nat :=
  match h with
  | .alreadyResolved => callTick
  | .resolvesOnStop => stopTick

/-! ## Human-relay captcha wait — `getCaptchaFromUser` (lines 368-439)

The wait phase registers `messageHandler` on the message
listeners of the bot and `abortHandler` on the cancel signal (lines 426-428).
`cleanupListener` (lines 418-423) removes the message listener, clears
`state.captchaMessageListener` and resets `state.isWaitingForCaptcha`;
it runs on both exit paths: a matching reply (lines 399-409, resolve)
and the abort signal (lines 412-415, reject).  A non-matching or
foreign-sender message leaves the listener in place.  We model the
listener registry of the bot as a list of listener identifiers. -/

/-- Bot-level state seen by the human-relay wait. -/
structure RelayState where
  listeners : List Nat
  isWaitingForCaptcha : Bool
deriving DecidableEq

/-- Errors of the captcha resolvers. -/
inductive CaptchaError where
  | aborted
deriving DecidableEq

/-- Registering the wait (lines 370 and 426-428): `bot.on("message", messageHandler)`
appends the handler to the registry; `state.isWaitingForCaptcha` was
set at entry. -/
def registerCaptchaListener (id : Nat) (s : RelayState) : RelayState :=
  { listeners := s.listeners ++ [id], isWaitingForCaptcha := true }

/-- `cleanupListener` (lines 418-423): remove the message
handler of this wait and reset the waiting flag. -/
def cleanupListener (id : Nat) (s : RelayState) : RelayState :=
  { listeners := s.listeners.erase id, isWaitingForCaptcha := false }

/-- Events that can reach a pending human-relay wait. -/
inductive RelayEvent where
  | matchingReply (text : String)
  | nonMatchingMessage
  | abortFired

/-- One event delivered to the wait registered as `id`: a matching
operator reply resolves with the text after `cleanupListener`; a
non-matching message is ignored and consumes nothing; the abort signal
runs `cleanupListener` and rejects with the cancellation error, in the
same step as the signal (lines 399-415). -/
def relayWaitStep (id : Nat) (s : RelayState) (e : RelayEvent) :
    RelayState × Option (Except CaptchaError String) :=
  match e with
  | .matchingReply text => (cleanupListener id s, some (.ok text))
  | .nonMatchingMessage => (s, none)
  | .abortFired => (cleanupListener id s, some (.error .aborted))

/-! ## Single-flight — `startCheckProcess` (lines 940-974) and the
`/checknow` handler (lines 977-1015)

The bot runs on a single-threaded event loop; each synchronous segment
of a handler is atomic.  We model the session-relevant fields of the
session-relevant fields and the two entry points as functions emitting
the user-visible session events in program order. -/

/-- Session-relevant fields of the process-wide `state` object
(lines 155-171). -/
structure BotState where
  isRunning : Bool
  isWaitingForCaptcha : Bool
  spamIntervalActive : Bool
  captchaListenerActive : Bool
  resolverPending : Bool
  hasAbortController : Bool
deriving DecidableEq

/-- Milestones of the lifecycle of a check session, in the order the
handlers produce them. -/
inductive SessionEvent where
  | alreadyRunningNotice
  | skippedOutsideHours
  | abortRequested
  | graceDelayElapsed
  | stateReset
  | sessionStarted
  | acquiringResources
deriving DecidableEq

/-- `startCheckProcess` (lines 940-974): refuse if a session is
running (lines 941-945); refuse a non-bypassing call outside working
hours (lines 949-968); otherwise install a fresh abort controller and
invoke `runCheck`, which marks the session running (line 705) and
begins acquiring the browser (lines 709-714). -/
def startCheckProcess (bypassTimeCheck withinHours : Bool) (s : BotState) :
    BotState × List SessionEvent :=
  if s.isRunning then
    (s, [.alreadyRunningNotice])
  else if !bypassTimeCheck && !withinHours then
    (s, [.skippedOutsideHours])
  else
    ({ s with isRunning := true, hasAbortController := true },
     [.sessionStarted, .acquiringResources])

/-- The `/checknow` handler (lines 977-1015): if a session is running,
signal its abort controller (lines 988-990) and await the 2000 ms
grace delay (line 992); then forcibly reset the session-scoped state
(lines 997-1009) and start a new check with the working-hours gate
bypassed (line 1014). -/
def checknowHandler (withinHours : Bool) (s : BotState) :
    BotState × List SessionEvent :=
  let evs0 : List SessionEvent :=
    if s.isRunning then
      (if s.hasAbortController then [.abortRequested] else []) ++ [.graceDelayElapsed]
    else []
  let s1 : BotState :=
    { s with isRunning := false, isWaitingForCaptcha := false,
             spamIntervalActive := false, captchaListenerActive := false,
             resolverPending := false }
  let (s2, evs2) := startCheckProcess true withinHours s1
  (s2, evs0 ++ [SessionEvent.stateReset] ++ evs2)

/-! ## Availability evaluation — `checkForNoAppointments` (lines 673-694)
and the evaluation phase of `runCheck` (lines 857-914) -/

/-- Ways the in-page availability evaluation can fail to execute. -/
inductive EvalFailure where
  | pageUnreadable
  | selectorTimeout
deriving DecidableEq

/-- `checkForNoAppointments` (lines 673-694): run the in-page
evaluation for the "no appointments" text; on success return its
boolean; if the evaluation throws, the `catch` (lines 689-693) logs and
returns `false` ("assume appointments might be available if check
fails, to be safe"). -/
def checkForNoAppointments (pageEval : Except EvalFailure Bool) : Bool :=
  match pageEval with
  | .ok noAppointmentsFound => noAppointmentsFound
  | .error _ => false

/-- How the evaluation phase of `runCheck` terminates. -/
inductive EvalPhaseResult where
  | noneFoundRetryLater
  | campaignStarted
  | nextMonthCheckFailedAssumedNone
  | alertedTermination
deriving DecidableEq

/-- The evaluation phase of `runCheck` (lines 857-914):
`checkForNoAppointments` on the current month; if it reports no
appointments, try to navigate to the next month (a navigation failure
is caught at lines 899-907 and reported as "assuming no appointments")
and run `checkForNoAppointments` there; any month reporting
availability starts the notification campaign (lines 893-898 and
908-914).  `alertedTermination` is the top-level `catch` of `runCheck`
(lines 917-927), which this phase never reaches. -/
def evaluationPhase (thisMonthEval : Except EvalFailure Bool) (nextMonthNavOk : Bool)
    (nextMonthEval : Except EvalFailure Bool) : EvalPhaseResult :=
  if checkForNoAppointments thisMonthEval then
    if nextMonthNavOk then
      if checkForNoAppointments nextMonthEval then .noneFoundRetryLater
      else .campaignStarted
    else .nextMonthCheckFailedAssumedNone
  else
    .campaignStarted

/-! ## Console forwarding overrides (lines 120-152) -/

/-- The `console.log` override (lines 120-134): a routine log line is
forwarded to the operator chat iff `state.isLoggingEnabled` is set and
neither a manual captcha wait (`state.isWaitingForCaptcha`) nor a
notification interval (`state.spamInterval`) is active. -/
def consoleLogForwarded (isLoggingEnabled isWaitingForCaptcha spamIntervalActive : Bool) :
    Bool :=
  isLoggingEnabled && !isWaitingForCaptcha && !spamIntervalActive

/-- The `console.warn` override (lines 136-143): warnings are always
forwarded, whatever the toggle and phase flags. -/
def consoleWarnForwarded (_isLoggingEnabled _isWaitingForCaptcha _spamIntervalActive : Bool) :
    Bool :=
  true

/-- The `console.error` override (lines 145-152): errors are always
forwarded, whatever the toggle and phase flags. -/
def consoleErrorForwarded (_isLoggingEnabled _isWaitingForCaptcha _spamIntervalActive : Bool) :
    Bool :=
  true

/-- The data-model invariant of a notification campaign: the tick
counter never exceeds `MAX_NOTIFICATIONS`, the email counter never
exceeds `MAX_EMAIL_NOTIFICATIONS`, and while the interval is installed
the tick counter is still below its cap. -/
def CampaignInv (c : NotificationCampaign) : Prop :=
  c.notificationCount ≤ MAX_NOTIFICATIONS ∧
  c.emailCount ≤ MAX_EMAIL_NOTIFICATIONS ∧
  (c.spamIntervalActive = true → c.notificationCount < MAX_NOTIFICATIONS)

instance (c : NotificationCampaign) : Decidable (CampaignInv c) := by
  unfold CampaignInv
  infer_instance

/-! ## Helper lemmas -/

theorem captchaLoop_exhausted_of_no_accept (outcome : Nat → AttemptOutcome)
    (maxAttempts : Nat) :
    ∀ fuel attempts, maxAttempts ≤ attempts + fuel → attempts ≤ maxAttempts →
      (∀ n, attempts ≤ n → n < maxAttempts → outcome n ≠ .accepted) →
      captchaLoop outcome maxAttempts attempts = .exhausted maxAttempts := by
  intro fuel
  induction fuel with
  | zero =>
    intro attempts h1 h2 _
    have heq : attempts = maxAttempts := by omega
    subst heq
    rw [captchaLoop]
    simp
  | succ k ih =>
    intro attempts h1 h2 hout
    by_cases hlt : attempts < maxAttempts
    · rw [captchaLoop, dif_pos hlt]
      cases hoc : outcome attempts with
      | accepted => exact absurd hoc (hout attempts le_rfl hlt)
      | wrongCaptcha =>
        exact ih (attempts + 1) (by omega) (by omega) (fun n hn h => hout n (by omega) h)
      | resolverFailed =>
        exact ih (attempts + 1) (by omega) (by omega) (fun n hn h => hout n (by omega) h)
    · have heq : attempts = maxAttempts := by omega
      subst heq
      rw [captchaLoop]
      simp

theorem campaignTick_inactive (c : NotificationCampaign)
    (h : c.spamIntervalActive = false) : campaignTick c = (c, false) := by
  simp [campaignTick, h]

theorem campaignRun_stable (k : Nat) : campaignRun (50 + k) = campaignRun 50 := by
  induction k with
  | zero => rfl
  | succ n ih =>
    have h50 : (campaignRun 50).spamIntervalActive = false := by decide
    show (campaignTick (campaignRun (50 + n))).1 = campaignRun 50
    rw [ih, campaignTick_inactive _ h50]

theorem sendAllNotifications_inv (c : NotificationCampaign)
    (hlt : c.notificationCount < MAX_NOTIFICATIONS)
    (hem : c.emailCount ≤ MAX_EMAIL_NOTIFICATIONS) :
    CampaignInv (sendAllNotifications c).1 := by
  unfold CampaignInv sendAllNotifications stopNotifications
  dsimp only
  split_ifs with h1 h2 h2 <;>
    simp_all [MAX_NOTIFICATIONS, MAX_EMAIL_NOTIFICATIONS] <;> omega

theorem campaignStep_inv (c : NotificationCampaign) (a : CampaignAction)
    (h : CampaignInv c) : CampaignInv (campaignStep c a) := by
  obtain ⟨h1, h2, h3⟩ := h
  cases a with
  | intervalTick =>
    by_cases hact : c.spamIntervalActive = true
    · show CampaignInv (campaignTick c).1
      rw [campaignTick, if_pos hact]
      exact sendAllNotifications_inv c (h3 hact) h2
    · show CampaignInv (campaignTick c).1
      rw [campaignTick_inactive c (by simpa using hact)]
      exact ⟨h1, h2, h3⟩
  | inbound chatMatches text =>
    show CampaignInv (handleInboundOk c chatMatches text).1
    rw [handleInboundOk]
    split
    · exact ⟨h1, h2, by intro hcontra; simp [stopNotifications] at hcontra⟩
    · exact ⟨h1, h2, h3⟩

theorem campaignExec_inv (acts : List CampaignAction) :
    CampaignInv (campaignExec acts) := by
  suffices h : ∀ c, CampaignInv c → CampaignInv (acts.foldl campaignStep c) from
    h campaignStart (by decide)
  induction acts with
  | nil => intro c hc; exact hc
  | cons a as ih => intro c hc; exact ih (campaignStep c a) (campaignStep_inv c a hc)

/-! ## Claim theorems -/

/-- Claim C2: for every working window and current time, if
`start ≤ end` (same-day window) the working-hours gate allows iff
`start ≤ now < end`, and if `start > end` (wrap-around window) it
allows iff `now ≥ start` or `now < end`; the gate is a pure function of
the injected clock value and the window fields. -/
theorem workingHoursGate_windows (sh sm eh em now : Nat) :
    (momentMs sh sm ≤ momentMs eh em →
      (isWithinWorkingHours sh sm eh em now = true ↔
        (momentMs sh sm ≤ now ∧ now < momentMs eh em))) ∧
    (momentMs eh em < momentMs sh sm →
      (isWithinWorkingHours sh sm eh em now = true ↔
        (momentMs sh sm ≤ now ∨ now < momentMs eh em))) := by
  constructor
  · intro hle
    rw [isWithinWorkingHours, if_neg (Nat.not_lt.mpr hle)]
    simp
  · intro hgt
    rw [isWithinWorkingHours, if_pos hgt]
    simp

/-- Witness for C2: the wrap-around window 22:00-06:00 allows 23:00. -/
theorem workingHoursGate_windows_witness :
    isWithinWorkingHours 22 0 6 0 82800000 = true :=
  ((workingHoursGate_windows 22 0 6 0 82800000).2 (by decide)).mpr
    (Or.inl (by decide))

/-- Counterexample to claim C9: for the window 06:00-06:00 we have
start-of-day ≥ end-of-day, and at 12:00 the wrap-around rule
(`now ≥ start` or `now < end`) would allow, yet the gate denies: the
boundary case `start = end` is not treated as wrap-around. -/
theorem wrapAroundEqualBounds_counterexample :
    momentMs 6 0 ≤ momentMs 6 0 ∧
    (momentMs 6 0 ≤ 43200000 ∨ 43200000 < momentMs 6 0) ∧
    isWithinWorkingHours 6 0 6 0 43200000 = false := by decide

/-- Claim C9 as amended: the gate applies the wrap-around rule only
when start-of-day is strictly greater than end-of-day; a window with
`start = end` falls into the same-day branch and, being empty, never
allows a check. -/
theorem wrapAroundStrictOnly (sh sm eh em now : Nat) :
    (momentMs eh em < momentMs sh sm →
      (isWithinWorkingHours sh sm eh em now = true ↔
        (momentMs sh sm ≤ now ∨ now < momentMs eh em))) ∧
    (momentMs sh sm = momentMs eh em →
      isWithinWorkingHours sh sm eh em now = false) := by
  constructor
  · intro hgt
    rw [isWithinWorkingHours, if_pos hgt]
    simp
  · intro heq
    rw [isWithinWorkingHours, heq, if_neg (lt_irrefl _)]
    simp only [Bool.and_eq_false_iff, decide_eq_false_iff_not, Nat.not_le,
      Nat.not_lt]
    omega

/-- Witness for the amended C9: the equal-bounds window 06:00-06:00
denies 12:00. -/
theorem wrapAroundStrictOnly_witness :
    isWithinWorkingHours 6 0 6 0 43200000 = false :=
  (wrapAroundStrictOnly 6 0 6 0 43200000).2 (by decide)

/-- Claim C3: with `MAX_CAPTCHA_ATTEMPTS = 5`, if every attempt fails
(wrong submission or resolver failure), the captcha loop exits with the
attempt counter at exactly 5, the orchestrator raises the
attempts-exhausted error, and the run never consults a 6th attempt:
any outcome sequence agreeing on the first 5 attempts produces the
same exhausted result. -/
theorem captchaRetryBound (outcome : Nat → AttemptOutcome)
    (hfail : ∀ n, outcome n ≠ AttemptOutcome.accepted) :
    captchaLoop outcome MAX_CAPTCHA_ATTEMPTS 0 = .exhausted 5 ∧
    runCheckCaptchaPhase outcome = .error .attemptsExhausted ∧
    (∀ outcome2 : Nat → AttemptOutcome,
      (∀ n, n < MAX_CAPTCHA_ATTEMPTS → outcome2 n = outcome n) →
      captchaLoop outcome2 MAX_CAPTCHA_ATTEMPTS 0 = .exhausted 5) := by
  have h5 : captchaLoop outcome MAX_CAPTCHA_ATTEMPTS 0 =
      .exhausted MAX_CAPTCHA_ATTEMPTS :=
    captchaLoop_exhausted_of_no_accept outcome MAX_CAPTCHA_ATTEMPTS
      MAX_CAPTCHA_ATTEMPTS 0 (by omega) (by omega) (fun n _ _ => hfail n)
  refine ⟨h5, ?_, ?_⟩
  · rw [runCheckCaptchaPhase, h5]
  · intro outcome2 hagree
    exact captchaLoop_exhausted_of_no_accept outcome2 MAX_CAPTCHA_ATTEMPTS
      MAX_CAPTCHA_ATTEMPTS 0 (by omega) (by omega)
      (fun n _ hn => by rw [hagree n hn]; exact hfail n)

/-- Witness for C3: an always-wrong resolver exhausts the loop at
exactly 5 attempts. -/
theorem captchaRetryBound_witness :
    captchaLoop (fun _ => AttemptOutcome.wrongCaptcha) MAX_CAPTCHA_ATTEMPTS 0 =
      CaptchaLoopResult.exhausted 5 :=
  (captchaRetryBound (fun _ => AttemptOutcome.wrongCaptcha)
    (fun _ h => AttemptOutcome.noConfusion h)).1

/-- Claim C4: an unacknowledged campaign with `MAX_NOTIFICATIONS = 50`,
`EMAIL_NOTIFICATION_FREQUENCY = 10`, `MAX_EMAIL_NOTIFICATIONS = 10`
sends exactly 50 chat/push ticks (ticks 0-49, 0-based) and exactly
5 emails, on the ticks whose 1-based index is 10, 20, 30, 40, 50, and
then terminates by itself (the state is fixed from tick 50 on);
throughout any campaign, under arbitrary interleavings of ticks and
inbound messages, the tick counter never exceeds `MAX_NOTIFICATIONS`
and the email counter never exceeds `MAX_EMAIL_NOTIFICATIONS`. -/
theorem notificationCampaignRun :
    (campaignRun 50).notificationCount = 50 ∧
    (campaignRun 50).emailCount = 5 ∧
    (campaignRun 50).spamIntervalActive = false ∧
    (∀ k, campaignRun (50 + k) = campaignRun 50) ∧
    (∀ n, chatOnTick n = true ↔ n < 50) ∧
    (∀ n, emailOnTick n = true ↔ ((n + 1) % 10 = 0 ∧ n < 50)) ∧
    (∀ acts, (campaignExec acts).notificationCount ≤ MAX_NOTIFICATIONS ∧
      (campaignExec acts).emailCount ≤ MAX_EMAIL_NOTIFICATIONS) := by
  have h50 : (campaignRun 50).spamIntervalActive = false := by decide
  have hchat : ∀ m, m < 50 → chatOnTick m = true := by decide
  have hmail : ∀ m, m < 50 → (emailOnTick m = true ↔ (m + 1) % 10 = 0) := by
    decide
  refine ⟨by decide, by decide, h50, campaignRun_stable, ?_, ?_, ?_⟩
  · intro n
    constructor
    · intro h
      by_contra hge
      push_neg at hge
      obtain ⟨k, rfl⟩ : ∃ k, n = 50 + k := ⟨n - 50, by omega⟩
      simp only [chatOnTick, campaignRun_stable, h50] at h
      exact Bool.false_ne_true h
    · intro h
      exact hchat n h
  · intro n
    by_cases hn : n < 50
    · rw [hmail n hn]
      exact ⟨fun h => ⟨h, hn⟩, fun h => h.1⟩
    · constructor
      · intro h
        exfalso
        obtain ⟨k, rfl⟩ : ∃ k, n = 50 + k := ⟨n - 50, by omega⟩
        simp only [emailOnTick, campaignRun_stable,
          campaignTick_inactive _ h50] at h
        exact Bool.false_ne_true h
      · intro h
        exact absurd h.2 hn
  · intro acts
    obtain ⟨h1, h2, _⟩ := campaignExec_inv acts
    exact ⟨h1, h2⟩

/-- Claim C8: during one campaign (here after 7 unacknowledged ticks)
the first operator OK sends exactly one "stopping alerts" confirmation
and terminates the campaign; a second OK is dispatched to no listener
(the acknowledgment listener was removed by `stopNotifications`) and
sends no second confirmation. -/
theorem ackIdempotent :
    (campaignRun 7).stopHandlerRegistered = true ∧
    handleInboundOk (campaignRun 7) true "ok" =
      (stopNotifications (campaignRun 7), 1) ∧
    (stopNotifications (campaignRun 7)).stopHandlerRegistered = false ∧
    (stopNotifications (campaignRun 7)).spamIntervalActive = false ∧
    handleInboundOk (stopNotifications (campaignRun 7)) true "OK" =
      (stopNotifications (campaignRun 7), 0) := by decide

/-- Counterexample to claim C6: at tick 3 a campaign is active, and a
second `notifyAvailable` call creates no new interval but returns an
already-resolved promise (`Promise.resolve()`), which resolves at the
call tick 3 — while the active campaign terminates only at tick 50.
The returned awaitable therefore does not resolve when the active
campaign terminates. -/
theorem notifySecondStart_counterexample :
    (campaignRun 3).spamIntervalActive = true ∧
    notifyAvailableCall true = (false, NotifyHandle.alreadyResolved) ∧
    handleResolveTick (notifyAvailableCall true).2 3 50 = 3 ∧
    (campaignRun 49).spamIntervalActive = true ∧
    (campaignRun 50).spamIntervalActive = false ∧
    (3 : Nat) ≠ 50 := by decide

/-- Claim C6 as amended: starting a campaign while one is active is a
no-op in that no additional interval timer or sends are created, but
the second start returns a fresh, immediately-resolved awaitable (it
resolves at the call tick), not the completion handle of the active
campaign. -/
theorem notifySecondStartNoop (callTick stopTick : Nat) :
    notifyAvailableCall true = (false, NotifyHandle.alreadyResolved) ∧
    handleResolveTick (notifyAvailableCall true).2 callTick stopTick = callTick :=
  ⟨rfl, rfl⟩

/-- Counterexample to claim C5: when the availability evaluation itself
fails to execute, `checkForNoAppointments` swallows the failure and
returns `false`, and the evaluation phase of `runCheck` starts the
notification campaign — it does not produce the alerted-termination
outcome the claim requires. -/
theorem evalErrorAlerted_counterexample :
    checkForNoAppointments (Except.error EvalFailure.pageUnreadable) = false ∧
    evaluationPhase (Except.error EvalFailure.pageUnreadable) true
      (Except.ok true) = EvalPhaseResult.campaignStarted ∧
    EvalPhaseResult.campaignStarted ≠ EvalPhaseResult.alertedTermination := by
  decide

/-- Claim C5 as amended: a failure of the availability evaluation is
converted into the verdict "appointments may be available"
(`checkForNoAppointments` returns `false`), so the orchestrator
proceeds to the notification campaign; no evaluation error reaches the
top-level handler and no alerted termination occurs on this path. -/
theorem evalErrorSwallowed (e : EvalFailure) (nextMonthNavOk : Bool)
    (nextMonthEval : Except EvalFailure Bool) :
    checkForNoAppointments (Except.error e) = false ∧
    evaluationPhase (Except.error e) nextMonthNavOk nextMonthEval =
      EvalPhaseResult.campaignStarted := by
  refine ⟨rfl, ?_⟩
  simp [evaluationPhase, checkForNoAppointments]

/-- Claim C7: if the abort signal fires while the human-relay resolver
waits for an operator reply, the wait fails with the cancellation error
in the same step and deregisters its message listener on that exit
path, restoring the listener registry; a second resolve registered
immediately afterwards has only its own listener active. -/
theorem relayAbortCleanup (s : RelayState) (id id2 : Nat)
    (hfresh : id ∉ s.listeners) :
    relayWaitStep id (registerCaptchaListener id s) RelayEvent.abortFired =
      ({ listeners := s.listeners, isWaitingForCaptcha := false },
        some (Except.error CaptchaError.aborted)) ∧
    (registerCaptchaListener id2
        (relayWaitStep id (registerCaptchaListener id s)
          RelayEvent.abortFired).1).listeners = s.listeners ++ [id2] := by
  have herase : (s.listeners ++ [id]).erase id = s.listeners := by
    rw [List.erase_append_right _ hfresh]
    simp
  constructor
  · simp [relayWaitStep, cleanupListener, registerCaptchaListener, herase]
  · simp [relayWaitStep, cleanupListener, registerCaptchaListener, herase]

/-- Witness for C7: aborting a wait registered on an empty registry
leaves the registry empty and fails with the cancellation error. -/
theorem relayAbortCleanup_witness :
    relayWaitStep 0 (registerCaptchaListener 0 ⟨[], false⟩)
        RelayEvent.abortFired =
      (⟨[], false⟩, some (Except.error CaptchaError.aborted)) :=
  (relayAbortCleanup ⟨[], false⟩ 0 1 (List.not_mem_nil 0)).1

/-- Claim C1: with a session active (and its abort controller
installed), the `/checknow` handler requests the abort of that single
active session and lets the bounded grace delay elapse before the new
session starts acquiring automation resources: exactly one
grace-elapse terminalization precedes the acquiring event; and
single-flight holds in general, since `startCheckProcess` refuses to
start a session whenever one is running. -/
theorem checknowSingleFlight (withinHours : Bool) (s : BotState)
    (hrun : s.isRunning = true) (hctl : s.hasAbortController = true) :
    (checknowHandler withinHours s).2 =
      [SessionEvent.abortRequested, SessionEvent.graceDelayElapsed,
        SessionEvent.stateReset, SessionEvent.sessionStarted,
        SessionEvent.acquiringResources] ∧
    ((checknowHandler withinHours s).2.takeWhile
        (fun e => decide (e ≠ SessionEvent.acquiringResources))).count
      SessionEvent.graceDelayElapsed = 1 ∧
    (∀ (bypass wh : Bool) (s2 : BotState), s2.isRunning = true →
      startCheckProcess bypass wh s2 = (s2, [SessionEvent.alreadyRunningNotice])) := by
  have hevs : (checknowHandler withinHours s).2 =
      [SessionEvent.abortRequested, SessionEvent.graceDelayElapsed,
        SessionEvent.stateReset, SessionEvent.sessionStarted,
        SessionEvent.acquiringResources] := by
    simp [checknowHandler, startCheckProcess, hrun, hctl]
  refine ⟨hevs, ?_, ?_⟩
  · rw [hevs]
    decide
  · intro bypass wh s2 h2
    simp [startCheckProcess, h2]

/-- Witness for C1: a concrete state with a session mid-captcha. -/
theorem checknowSingleFlight_witness :
    (checknowHandler true
        { isRunning := true, isWaitingForCaptcha := true,
          spamIntervalActive := false, captchaListenerActive := true,
          resolverPending := false, hasAbortController := true }).2 =
      [SessionEvent.abortRequested, SessionEvent.graceDelayElapsed,
        SessionEvent.stateReset, SessionEvent.sessionStarted,
        SessionEvent.acquiringResources] :=
  (checknowSingleFlight true
    { isRunning := true, isWaitingForCaptcha := true,
      spamIntervalActive := false, captchaListenerActive := true,
      resolverPending := false, hasAbortController := true } rfl rfl).1

/-- Claim C10: a routine log line is forwarded to the operator iff the
logging toggle is on and neither a manual captcha wait nor a
notification interval is active; warnings and errors are forwarded
unconditionally. -/
theorem consoleForwarding :
    (∀ le wc si : Bool,
      consoleLogForwarded le wc si = true ↔
        (le = true ∧ wc = false ∧ si = false)) ∧
    (∀ le wc si : Bool, consoleWarnForwarded le wc si = true) ∧
    (∀ le wc si : Bool, consoleErrorForwarded le wc si = true) := by decide

end Watcher
